import Mathlib

set_option autoImplicit false

/-!
Shallow embedding of `src/backend/vulkan/src/factory.rs` (gfx, Vulkan backend
factory).  Native Vulkan enumeration values are plain natural numbers with
their header values.  Translation tables that live in the sibling module
`data.rs` (not part of the sources) are parameters, collected in `DataMaps`.
Types that live in `gfx_core` (also not part of the sources) are modelled from
the specification where their behaviour matters and are marked as such.
-/

/-! Vulkan enumeration constants (values from the Vulkan headers / vk.rs). -/

namespace vk

def TRUE_ : Nat := 1

def FALSE_ : Nat := 0

def DESCRIPTOR_TYPE_SAMPLER : Nat := 0

def DESCRIPTOR_TYPE_SAMPLED_IMAGE : Nat := 2

def DESCRIPTOR_TYPE_STORAGE_IMAGE : Nat := 3

def DESCRIPTOR_TYPE_UNIFORM_BUFFER : Nat := 6

def ATTACHMENT_LOAD_OP_LOAD : Nat := 0

def ATTACHMENT_LOAD_OP_CLEAR : Nat := 1

def ATTACHMENT_LOAD_OP_DONT_CARE : Nat := 2

def ATTACHMENT_STORE_OP_STORE : Nat := 0

def ATTACHMENT_STORE_OP_DONT_CARE : Nat := 1

def IMAGE_LAYOUT_GENERAL : Nat := 1

def DYNAMIC_STATE_VIEWPORT : Nat := 0

def DYNAMIC_STATE_SCISSOR : Nat := 1

def DYNAMIC_STATE_BLEND_CONSTANTS : Nat := 4

def DYNAMIC_STATE_STENCIL_REFERENCE : Nat := 8

def SAMPLE_COUNT_1_BIT : Nat := 1

def SHARING_MODE_EXCLUSIVE : Nat := 0

def COMPARE_OP_NEVER : Nat := 0

def IMAGE_CREATE_MUTABLE_FORMAT_BIT : Nat := 8

def IMAGE_CREATE_CUBE_COMPATIBLE_BIT : Nat := 16

/-- `VK_WHOLE_SIZE` sentinel (`!0u64`). -/
def WHOLE_SIZE : Nat := 2 ^ 64 - 1

end vk

/-! Abstract gfx_core types used by the factory.  Enumerations the factory
merely forwards to translation functions are left abstract as `Nat`. -/

/-- Modelled from the spec: `gfx_core::format::ChannelType` (the abstract
channel-type enumeration; the factory needs `Uint` as the default hint,
`Srgb` and `Unorm` appear at call sites). -/
inductive ChannelType
  | Int_
  | Uint
  | Inorm
  | Unorm
  | Float_
  | Srgb
deriving DecidableEq, Inhabited

/-- Modelled from the spec: `gfx_core::mapping::Access`, a read/write
capability pair (readable / writable / read-write). -/
structure Access where
  read : Bool
  write : Bool
deriving DecidableEq, Inhabited

def READABLE : Access := { read := true, write := false }

def WRITABLE : Access := { read := false, write := true }

def RW : Access := { read := true, write := true }

/-- Modelled from the spec: `gfx_core::factory::Usage`, the creation-time
usage class of a resource.  The factory matches on `CpuOnly` (system memory)
versus everything else (video memory), and constructs `Immutable` itself. -/
inductive Usage
  | GpuOnly
  | Immutable
  | Dynamic
  | CpuOnly (access : Access)
deriving DecidableEq, Inhabited

/-- An abstract surface type (`gfx_core::format::SurfaceType`), identified by
an opaque numeric id. -/
abbrev SurfaceType := Nat

/-- Embeds `gfx_core::format::Format`: a surface type paired with a channel
type. -/
structure SurfaceFormat where
  surface : SurfaceType
  channel : ChannelType
deriving DecidableEq, Inhabited

/-- Modelled from the spec: `gfx_core::tex::Kind` (1D/2D/3D/cube and the
array variants).  Dimensions are carried so that `get_dimensions` and
`get_num_slices` can be read off; `AaMode` is collapsed to its fragment
count. -/
inductive Kind
  | D1 (w : Nat)
  | D1Array (w slices : Nat)
  | D2 (w h aa : Nat)
  | D2Array (w h slices aa : Nat)
  | D3 (w h d : Nat)
  | Cube (w : Nat)
  | CubeArray (w slices : Nat)
deriving DecidableEq, Inhabited

/-- Modelled from the spec: `Kind::get_num_slices` reports the array slice
count for array kinds and nothing for the rest (views default the layer
count to 1 in that case). -/
def Kind.get_num_slices : Kind → Option Nat
  | .D1Array _ s => some s
  | .D2Array _ _ s _ => some s
  | .CubeArray _ s => some s
  | _ => none

/-- Modelled from the spec: `Kind::get_dimensions` as (width, height, depth,
fragment count). -/
def Kind.get_dimensions : Kind → Nat × Nat × Nat × Nat
  | .D1 w => (w, 1, 1, 1)
  | .D1Array w _ => (w, 1, 1, 1)
  | .D2 w h aa => (w, h, 1, aa)
  | .D2Array w h _ aa => (w, h, 1, aa)
  | .D3 w h d => (w, h, d, 1)
  | .Cube w => (w, w, 1, 1)
  | .CubeArray w _ => (w, w, 1, 1)

/-- Modelled from the spec: `Kind::is_cube`. -/
def Kind.is_cube : Kind → Bool
  | .Cube _ => true
  | .CubeArray _ _ => true
  | _ => false

/-- Embeds `gfx_core::factory::BufferInfo` (role/usage/bind left abstract
where the factory only forwards them). -/
structure BufferInfo where
  role : Nat
  usage : Usage
  bind : Nat
  size : Nat
  stride : Nat
deriving DecidableEq, Inhabited

/-- Embeds `gfx_core::tex::Descriptor`. -/
structure TexDescriptor where
  kind : Kind
  levels : Nat
  format : SurfaceType
  bind : Nat
  usage : Usage
deriving DecidableEq, Inhabited

/-- Embeds `gfx_core::tex::ResourceDesc` (swizzle abstract). -/
structure ResourceDesc where
  channel : ChannelType
  layer : Option Nat
  min : Nat
  max : Nat
  swizzle : Nat
deriving DecidableEq, Inhabited

/-- `Swizzle::new()` is the identity swizzle; its abstract id. -/
def swizzleNew : Nat := 0

/-- The translation functions of the sibling `data.rs` module (not among the
sources); the factory is embedded parametrically in them.  Enumerations they
consume or produce are abstract numeric ids. -/
structure DataMaps where
  map_stage : Nat → Nat
  map_format : SurfaceType → ChannelType → Option Nat
  map_usage_tiling : Usage → Nat → Nat × Nat
  map_image_view_type : Kind → Option Nat → Except Nat Nat
  map_image_aspect : SurfaceType → ChannelType → Bool → Nat
  map_swizzle : Nat → Nat
  map_topology : Nat → Nat
  map_comparison : Nat → Nat
  map_stencil_side : Nat → Nat
  map_blend : Nat → Nat
  map_image_type : Kind → Nat
  map_image_layout : Nat → Nat

/-- A simple total instantiation of the translation tables, used to evaluate
the embedding on concrete inputs. -/
def dmId : DataMaps where
  map_stage := fun u => u
  map_format := fun s _ => some s
  map_usage_tiling := fun _ _ => (0, 0)
  map_image_view_type := fun _ _ => .ok 0
  map_image_aspect := fun _ _ _ => 1
  map_swizzle := fun s => s
  map_topology := fun t => t
  map_comparison := fun c => c
  map_stencil_side := fun s => s
  map_blend := fun b => b
  map_image_type := fun _ => 0
  map_image_layout := fun _ => 0

/-! The factory state: the ids it was constructed with (`Factory::new`). -/

structure Factory where
  queue_family_index : Nat
  mem_video_id : Nat
  mem_system_id : Nat
deriving DecidableEq, Inhabited

/-- Embeds `vk::MemoryRequirements`. -/
structure MemoryRequirements where
  size : Nat
  alignment : Nat
  memoryTypeBits : Nat
deriving DecidableEq, Inhabited

/-- Embeds `vk::MemoryAllocateInfo` (the fields the allocator fills). -/
structure MemoryAllocateInfo where
  allocationSize : Nat
  memoryTypeIndex : Nat
deriving DecidableEq, Inhabited

/-- Embeds `Factory::alloc`: picks the system memory type for `CpuOnly`
usage, the video memory type for everything else, and sizes the allocation
to the reported requirements. -/
def alloc (f : Factory) (usage : Usage) (reqs : MemoryRequirements) : MemoryAllocateInfo :=
  { allocationSize := reqs.size,
    memoryTypeIndex :=
      match usage with
      | .CpuOnly _ => f.mem_system_id
      | _ => f.mem_video_id }

/-! Buffers.  Freshly allocated host-visible memory has unspecified contents,
so the backing bytes are a parameter `init`; `MapMemory` + copy overwrite the
first `data.length` bytes. -/

/-- Embeds the `vk::BufferCreateInfo` fields `create_buffer_impl` fills. -/
structure VkBufferCreateInfo where
  size : Nat
  usage : Nat
  sharingMode : Nat
  queueFamilyIndexCount : Nat
deriving DecidableEq, Inhabited

/-- A native buffer: its creation record, its allocation, and the byte
contents of its backing memory (as a function from byte address). -/
structure NativeBuffer where
  createInfo : VkBufferCreateInfo
  memory : MemoryAllocateInfo
  contents : Nat → Nat

/-- A registered buffer handle: the native record plus the `BufferInfo` it
was created with. -/
structure BufferRecord where
  resource : NativeBuffer
  info : BufferInfo

/-- Embeds `gfx_core::factory::BufferError`; this backend never constructs
any of its variants, so they are irrelevant here. -/
inductive BufferError
  | other
deriving DecidableEq, Inhabited

/-- Overwrites the first `data.length` bytes of `mem` with `data`
(`ptr::copy_nonoverlapping` into the mapped pointer at offset 0). -/
def writeBytes (mem : Nat → Nat) (data : List Nat) : Nat → Nat :=
  fun a => if h : a < data.length then data[a] else mem a

/-- Reads `n` bytes back from a memory region. -/
def readBytes (mem : Nat → Nat) (n : Nat) : List Nat :=
  (List.range n).map mem

/-- Embeds `Factory::create_buffer_impl`: builds the buffer creation record
(size from the info, exclusive sharing, one queue family), allocates via
`alloc` keyed off the requested usage, and binds. -/
def create_buffer_impl (f : Factory) (dm : DataMaps) (init : Nat → Nat)
    (info : BufferInfo) (reqs : MemoryRequirements) : NativeBuffer :=
  { createInfo :=
      { size := info.size,
        usage := (dm.map_usage_tiling info.usage info.bind).1,
        sharingMode := vk.SHARING_MODE_EXCLUSIVE,
        queueFamilyIndexCount := 1 },
    memory := alloc f info.usage reqs,
    contents := init }

/-- Embeds `Factory::create_buffer_raw`: unconditionally wraps the created
buffer in `Ok` (all failure paths inside creation are fatal assertions). -/
def create_buffer_raw (f : Factory) (dm : DataMaps) (init : Nat → Nat)
    (info : BufferInfo) (reqs : MemoryRequirements) : Except BufferError BufferRecord :=
  .ok { resource := create_buffer_impl f dm init info reqs, info := info }

/-- Embeds `Factory::create_buffer_immutable_raw`: fixes usage to
`Immutable` and size to `data.len()`, creates the buffer, maps the full
region, copies the bytes verbatim, and unmaps. -/
def create_buffer_immutable_raw (f : Factory) (dm : DataMaps) (init : Nat → Nat)
    (data : List Nat) (stride role bind : Nat) (reqs : MemoryRequirements) :
    Except BufferError BufferRecord :=
  let info : BufferInfo :=
    { role := role, usage := .Immutable, bind := bind, size := data.length, stride := stride }
  let buffer := create_buffer_impl f dm init info reqs
  let buffer := { buffer with contents := writeBytes buffer.contents data }
  .ok { resource := buffer, info := info }

/-! Host mapping. -/

/-- Embeds `gfx_core::mapping::Error` as far as this factory produces it:
the invalid-access variant carrying the requested access and the buffer's
usage. -/
inductive MappingError
  | InvalidAccess (access : Access) (usage : Usage)
deriving DecidableEq

/-- Does access `a` request no more than capability `b` grants? -/
def Access.subsetOf (a b : Access) : Bool :=
  (!a.read || b.read) && (!a.write || b.write)

/-- Modelled from the spec: which access modes a creation-time usage permits
for host mapping (`valid_access` lives in gfx_core, not among the sources).
GPU-only and immutable buffers permit no host access; CPU-only buffers
permit exactly their declared access; dynamic buffers permit read and write
(the spec's end-to-end scenario maps a dynamic buffer writable, then
readable). -/
def usage_permits : Usage → Access → Bool
  | .CpuOnly a, acc => acc.subsetOf a
  | .Dynamic, _ => true
  | _, _ => false

/-- Modelled from the spec: `RawBuffer::valid_access`, failing with the
named mapping error when the usage does not permit the access. -/
def valid_access (usage : Usage) (access : Access) : Except MappingError Unit :=
  if usage_permits usage access then .ok () else .error (.InvalidAccess access usage)

/-- The mapping gate returned by a successful map: the access mode and the
mapped region (offset, size) handed to `MapMemory`. -/
structure RawMapping where
  access : Access
  mappedOffset : Nat
  mappedSize : Nat
deriving DecidableEq

/-- Embeds `Factory::map_buffer_raw`.  The second component records whether
the native `MapMemory` call was performed.  On a permitted access the whole
backing region is mapped (offset 0, `VK_WHOLE_SIZE`). -/
def map_buffer_raw (buf : BufferRecord) (access : Access) :
    Except MappingError RawMapping × Bool :=
  match valid_access buf.info.usage access with
  | .error e => (.error e, false)
  | .ok _ =>
      (.ok { access := access, mappedOffset := 0, mappedSize := vk.WHOLE_SIZE }, true)

/-! Pipeline state objects (`create_pipeline_state_raw`). -/

/-- Embeds `pso::CreationError` (a unit struct). -/
inductive CreationError
  | mk
deriving DecidableEq, Inhabited

/-- Embeds `vk::DescriptorSetLayoutBinding` (the immutable-samplers pointer
is always null and omitted). -/
structure DescriptorSetLayoutBinding where
  binding : Nat
  descriptorType : Nat
  descriptorCount : Nat
  stageFlags : Nat
deriving DecidableEq, Inhabited

/-- Embeds one of the four `iter().enumerate()` loops that populate the
descriptor-set layout: slot `i` (counting from the given start index) emits
one binding with binding index `i`, the supplied descriptor type,
descriptor count 1 and stage flags translated from the slot's usage; absent
slots emit nothing. -/
def slotBindingsFrom (ms : Nat → Nat) (ty : Nat) : Nat → List (Option Nat) →
    List DescriptorSetLayoutBinding
  | _, [] => []
  | i, none :: rest => slotBindingsFrom ms ty (i + 1) rest
  | i, some u :: rest =>
      { binding := i, descriptorType := ty, descriptorCount := 1, stageFlags := ms u } ::
        slotBindingsFrom ms ty (i + 1) rest

/-- Embeds the pipeline descriptor fields `create_pipeline_state_raw` reads
(`gfx_core::pso::Descriptor`); state blocks the factory only forwards to
translation functions are abstract numeric ids. -/
structure DepthState where
  fn : Nat
  write : Bool
deriving DecidableEq, Inhabited

/-- Embeds `gfx_core::pso::DepthStencilInfo`. -/
structure DepthStencilInfo where
  depth : Option DepthState
  front : Option Nat
  back : Option Nat
deriving DecidableEq, Inhabited

/-- Embeds a present color target: its format and abstract blend info. -/
structure ColorTargetDesc where
  fmt : SurfaceFormat
  blend : Nat
deriving DecidableEq, Inhabited

/-- Embeds `gfx_core::pso::Rasterizer` (method/cull/front-face abstract;
offset is the optional (slope, units) depth-bias pair). -/
structure RasterizerDesc where
  method : Nat
  cull_face : Nat
  front_face : Nat
  offset : Option (Nat × Nat)
deriving DecidableEq, Inhabited

/-- Embeds a present vertex buffer slot. -/
structure VertexBufferDesc where
  stride : Nat
  rate : Nat
deriving DecidableEq, Inhabited

/-- Embeds a present attribute slot: referenced buffer binding plus the
element's format and offset. -/
structure AttributeDesc where
  buffer : Nat
  format : SurfaceFormat
  offset : Nat
deriving DecidableEq, Inhabited

/-- Embeds `gfx_core::pso::Descriptor`. -/
structure PsoDescriptor where
  primitive : Nat
  rasterizer : RasterizerDesc
  constant_buffers : List (Option Nat)
  resource_views : List (Option Nat)
  unordered_views : List (Option Nat)
  samplers : List (Option Nat)
  vertex_buffers : List (Option VertexBufferDesc)
  attributes : List (Option AttributeDesc)
  color_targets : List (Option ColorTargetDesc)
  depth_stencil : Option (SurfaceFormat × DepthStencilInfo)
deriving Inhabited

/-- Embeds the descriptor-set layout construction of
`create_pipeline_state_raw`: constant-buffer, shader-resource,
unordered-access and sampler slots are scanned in that order, each with its
fixed descriptor type. -/
def set_layout_bindings (dm : DataMaps) (desc : PsoDescriptor) :
    List DescriptorSetLayoutBinding :=
  slotBindingsFrom dm.map_stage vk.DESCRIPTOR_TYPE_UNIFORM_BUFFER 0 desc.constant_buffers ++
  slotBindingsFrom dm.map_stage vk.DESCRIPTOR_TYPE_SAMPLED_IMAGE 0 desc.resource_views ++
  slotBindingsFrom dm.map_stage vk.DESCRIPTOR_TYPE_STORAGE_IMAGE 0 desc.unordered_views ++
  slotBindingsFrom dm.map_stage vk.DESCRIPTOR_TYPE_SAMPLER 0 desc.samplers

/-- Embeds `vk::AttachmentDescription`. -/
structure AttachmentDescription where
  format : Nat
  samples : Nat
  loadOp : Nat
  storeOp : Nat
  stencilLoadOp : Nat
  stencilStoreOp : Nat
  initialLayout : Nat
  finalLayout : Nat
deriving DecidableEq, Inhabited

/-- Embeds `vk::AttachmentReference`. -/
structure AttachmentReference where
  attachment : Nat
  layout : Nat
deriving DecidableEq, Inhabited

/-- Embeds `vk::SubpassDescription` (graphics bind point; input, resolve and
preserve attachments are always absent). -/
structure SubpassDescription where
  colorAttachments : List AttachmentReference
  depthStencilAttachment : Option AttachmentReference
deriving DecidableEq, Inhabited

/-- Embeds `vk::RenderPassCreateInfo` (dependencies are a list to record
that none are ever supplied). -/
structure RenderPassCreateInfo where
  attachments : List AttachmentDescription
  subpasses : List SubpassDescription
  dependencies : List Unit
deriving DecidableEq, Inhabited

/-- First-error traversal, the shape of the `for` loops that `return Err`
on the first failing format resolution. -/
def mapExcept {α β ε : Type} (f : α → Except ε β) : List α → Except ε (List β)
  | [] => .ok []
  | a :: rest =>
      match f a with
      | .error e => .error e
      | .ok b =>
          match mapExcept f rest with
          | .error e => .error e
          | .ok bs => .ok (b :: bs)

/-- The present color targets, in slot order
(`color_targets.iter().filter_map(|c| c.as_ref())`). -/
def presentColorTargets (desc : PsoDescriptor) : List ColorTargetDesc :=
  desc.color_targets.filterMap id

/-- Embeds the attachment description built for one color target: format
resolved through the translator (failure aborts pipeline creation), one
sample, load/store for the color ops and dont-care for the stencil ops,
general layout. -/
def colorAttachment (mf : SurfaceType → ChannelType → Option Nat)
    (c : ColorTargetDesc) : Except CreationError AttachmentDescription :=
  match mf c.fmt.surface c.fmt.channel with
  | none => .error .mk
  | some fm =>
      .ok { format := fm,
            samples := vk.SAMPLE_COUNT_1_BIT,
            loadOp := vk.ATTACHMENT_LOAD_OP_LOAD,
            storeOp := vk.ATTACHMENT_STORE_OP_STORE,
            stencilLoadOp := vk.ATTACHMENT_LOAD_OP_DONT_CARE,
            stencilStoreOp := vk.ATTACHMENT_STORE_OP_DONT_CARE,
            initialLayout := vk.IMAGE_LAYOUT_GENERAL,
            finalLayout := vk.IMAGE_LAYOUT_GENERAL }

/-- Embeds the optional depth/stencil attachment: all four load/store ops
are load/store. -/
def depthStencilAttachments (mf : SurfaceType → ChannelType → Option Nat) :
    Option (SurfaceFormat × DepthStencilInfo) →
    Except CreationError (List AttachmentDescription)
  | none => .ok []
  | some (fmt, _) =>
      match mf fmt.surface fmt.channel with
      | none => .error .mk
      | some fm =>
          .ok [{ format := fm,
                 samples := vk.SAMPLE_COUNT_1_BIT,
                 loadOp := vk.ATTACHMENT_LOAD_OP_LOAD,
                 storeOp := vk.ATTACHMENT_STORE_OP_STORE,
                 stencilLoadOp := vk.ATTACHMENT_LOAD_OP_LOAD,
                 stencilStoreOp := vk.ATTACHMENT_STORE_OP_STORE,
                 initialLayout := vk.IMAGE_LAYOUT_GENERAL,
                 finalLayout := vk.IMAGE_LAYOUT_GENERAL }]

/-- Embeds the render-pass construction of `create_pipeline_state_raw`: one
attachment per present color target (reference index = position in the
attachment vector at push time), then the optional depth/stencil attachment
(its reference index is the number of color attachments), exactly one
subpass, no dependencies. -/
def build_render_pass (mf : SurfaceType → ChannelType → Option Nat)
    (desc : PsoDescriptor) : Except CreationError RenderPassCreateInfo :=
  match mapExcept (colorAttachment mf) (presentColorTargets desc) with
  | .error e => .error e
  | .ok colorAtts =>
      match depthStencilAttachments mf desc.depth_stencil with
      | .error e => .error e
      | .ok dsAtts =>
          .ok { attachments := colorAtts ++ dsAtts,
                subpasses :=
                  [{ colorAttachments :=
                       (List.range colorAtts.length).map
                         (fun i => { attachment := i, layout := vk.IMAGE_LAYOUT_GENERAL }),
                     depthStencilAttachment :=
                       if desc.depth_stencil.isSome then
                         some { attachment := colorAtts.length, layout := vk.IMAGE_LAYOUT_GENERAL }
                       else none }],
                dependencies := [] }

/-- Embeds `vk::PipelineDepthStencilStateCreateInfo` (the Nat-valued fields;
the float depth-bounds values are constants in the source and omitted). -/
structure PipelineDepthStencilStateCreateInfo where
  depthTestEnable : Nat
  depthWriteEnable : Nat
  depthCompareOp : Nat
  depthBoundsTestEnable : Nat
  stencilTestEnable : Nat
  front : Nat
  back : Nat
deriving DecidableEq, Inhabited

/-- Embeds the depth/stencil block of the graphics-pipeline record: absence
of a component disables the corresponding test; absent stencil sides are
zeroed. -/
def depth_stencil_state (dm : DataMaps) (desc : PsoDescriptor) :
    PipelineDepthStencilStateCreateInfo :=
  { depthTestEnable :=
      match desc.depth_stencil with
      | some (_, ⟨some _, _, _⟩) => vk.TRUE_
      | _ => vk.FALSE_,
    depthWriteEnable :=
      match desc.depth_stencil with
      | some (_, ⟨some ⟨_, true⟩, _, _⟩) => vk.TRUE_
      | _ => vk.FALSE_,
    depthCompareOp :=
      match desc.depth_stencil with
      | some (_, ⟨some d, _, _⟩) => dm.map_comparison d.fn
      | _ => vk.COMPARE_OP_NEVER,
    depthBoundsTestEnable := vk.FALSE_,
    stencilTestEnable :=
      match desc.depth_stencil with
      | some (_, ⟨_, some _, _⟩) => vk.TRUE_
      | some (_, ⟨_, _, some _⟩) => vk.TRUE_
      | _ => vk.FALSE_,
    front :=
      match desc.depth_stencil with
      | some (_, ⟨_, some s, _⟩) => dm.map_stencil_side s
      | _ => 0,
    back :=
      match desc.depth_stencil with
      | some (_, ⟨_, _, some s⟩) => dm.map_stencil_side s
      | _ => 0 }

/-- Embeds `vk::PipelineDynamicStateCreateInfo`: the state array handed to
the driver and the count of entries the driver will read. -/
structure PipelineDynamicStateCreateInfo where
  dynamicStateCount : Nat
  pDynamicStates : List Nat
deriving DecidableEq, Inhabited

/-- Embeds the dynamic-state block of `create_pipeline_state_raw` verbatim:
a four-element array but a count of 1. -/
def dynamic_state_info : PipelineDynamicStateCreateInfo :=
  { dynamicStateCount := 1,
    pDynamicStates :=
      [vk.DYNAMIC_STATE_VIEWPORT,
       vk.DYNAMIC_STATE_SCISSOR,
       vk.DYNAMIC_STATE_BLEND_CONSTANTS,
       vk.DYNAMIC_STATE_STENCIL_REFERENCE] }

/-- The dynamic states the driver actually enables: the first
`dynamicStateCount` entries of the array (Vulkan reads exactly that many). -/
def enabledDynamicStates (i : PipelineDynamicStateCreateInfo) : List Nat :=
  i.pDynamicStates.take i.dynamicStateCount

/-- Embeds `vk::VertexInputBindingDescription`. -/
structure VertexInputBindingDescription where
  binding : Nat
  stride : Nat
  inputRate : Nat
deriving DecidableEq, Inhabited

/-- Embeds `vk::VertexInputAttributeDescription`. -/
structure VertexInputAttributeDescription where
  location : Nat
  binding : Nat
  format : Nat
  offset : Nat
deriving DecidableEq, Inhabited

/-- Embeds the vertex-buffer binding loop: present slot `i` yields binding
index `i` with the slot's stride and rate. -/
def vertexBindingsFrom : Nat → List (Option VertexBufferDesc) →
    List VertexInputBindingDescription
  | _, [] => []
  | i, none :: rest => vertexBindingsFrom (i + 1) rest
  | i, some v :: rest =>
      { binding := i, stride := v.stride, inputRate := v.rate } ::
        vertexBindingsFrom (i + 1) rest

/-- Embeds the attribute loop: present slot `i` yields location `i`, the
referenced buffer binding, the resolved element format (failure aborts
pipeline creation) and the element offset. -/
def vertexAttributesFrom (mf : SurfaceType → ChannelType → Option Nat) :
    Nat → List (Option AttributeDesc) →
    Except CreationError (List VertexInputAttributeDescription)
  | _, [] => .ok []
  | i, none :: rest => vertexAttributesFrom mf (i + 1) rest
  | i, some a :: rest =>
      match mf a.format.surface a.format.channel with
      | none => .error .mk
      | some fm =>
          match vertexAttributesFrom mf (i + 1) rest with
          | .error e => .error e
          | .ok l =>
              .ok ({ location := i, binding := a.buffer, format := fm, offset := a.offset } :: l)

/-- Embeds the `vk::GraphicsPipelineCreateInfo` content the factory
computes (blocks that are constant or real-valued in the source — viewport
placeholder, multisampling, rasterization floats — are omitted; the
color-blend attachments are the translated blend states of the present
color targets). -/
structure GraphicsPipelineCreateInfo where
  vertexBindings : List VertexInputBindingDescription
  vertexAttributes : List VertexInputAttributeDescription
  topology : Nat
  primitiveRestartEnable : Nat
  depthStencilState : PipelineDepthStencilStateCreateInfo
  colorBlendAttachments : List Nat
  dynamicState : PipelineDynamicStateCreateInfo
deriving DecidableEq, Inhabited

/-- The record `create_pipeline_state_raw` registers on success: descriptor
set layout bindings, pipeline layout shape (one set layout, no push
constants), descriptor pool capacity, render pass, and graphics pipeline
record. -/
structure PipelineRecord where
  setLayoutBindings : List DescriptorSetLayoutBinding
  setLayoutCount : Nat
  pushConstantRanges : List Unit
  poolMaxSets : Nat
  render_pass : RenderPassCreateInfo
  pipeline : GraphicsPipelineCreateInfo
deriving DecidableEq, Inhabited

/-- Embeds `Factory::create_pipeline_state_raw`: set layout, pipeline
layout, pool, render pass, then the graphics pipeline; any failing format
resolution aborts the whole operation with `CreationError`. -/
def create_pipeline_state_raw (dm : DataMaps) (desc : PsoDescriptor) :
    Except CreationError PipelineRecord :=
  let bindings := set_layout_bindings dm desc
  match build_render_pass dm.map_format desc with
  | .error e => .error e
  | .ok rp =>
      match vertexAttributesFrom dm.map_format 0 desc.attributes with
      | .error e => .error e
      | .ok vas =>
          .ok { setLayoutBindings := bindings,
                setLayoutCount := 1,
                pushConstantRanges := [],
                poolMaxSets := 100,
                render_pass := rp,
                pipeline :=
                  { vertexBindings := vertexBindingsFrom 0 desc.vertex_buffers,
                    vertexAttributes := vas,
                    topology := dm.map_topology desc.primitive,
                    primitiveRestartEnable := vk.FALSE_,
                    depthStencilState := depth_stencil_state dm desc,
                    colorBlendAttachments :=
                      (desc.color_targets.filterMap id).map (fun c => dm.map_blend c.blend),
                    dynamicState := dynamic_state_info } }

/-! Texture creation and texture views. -/

/-- Embeds `gfx_core::tex::Error` as far as this factory produces it: the
format variant carrying the requested format and the original hint. -/
inductive TexError
  | Format (format : SurfaceType) (hint : Option ChannelType)
deriving DecidableEq

/-- Embeds the `vk::ImageCreateInfo` fields `create_texture_raw` fills. -/
structure ImageCreateInfo where
  flags : Nat
  imageType : Nat
  format : Nat
  width : Nat
  height : Nat
  depth : Nat
  mipLevels : Nat
  arrayLayers : Nat
  samples : Nat
  tiling : Nat
  usage : Nat
  sharingMode : Nat
  initialLayout : Nat
deriving DecidableEq, Inhabited

/-- Embeds `native::Texture` plus its registered descriptor: the image
creation record, the mutable layout cell initialised to the initial layout,
and the backing allocation. -/
structure TextureRecord where
  info : ImageCreateInfo
  layout : Nat
  memory : MemoryAllocateInfo
  desc : TexDescriptor
deriving DecidableEq, Inhabited

/-- Embeds `Factory::create_texture_raw`.  The second component records
whether the native `CreateImage` call was performed: format resolution
happens while building the creation record, before any native call. -/
def create_texture_raw (dm : DataMaps) (f : Factory) (reqs : MemoryRequirements)
    (desc : TexDescriptor) (hint : Option ChannelType) :
    Except TexError TextureRecord × Bool :=
  let dims := desc.kind.get_dimensions
  let slices := desc.kind.get_num_slices
  let ut := dm.map_usage_tiling desc.usage desc.bind
  let chan_type := hint.getD ChannelType.Uint
  match dm.map_format desc.format chan_type with
  | none => (.error (.Format desc.format hint), false)
  | some fm =>
      let info : ImageCreateInfo :=
        { flags := vk.IMAGE_CREATE_MUTABLE_FORMAT_BIT |||
            (if desc.kind.is_cube then vk.IMAGE_CREATE_CUBE_COMPATIBLE_BIT else 0),
          imageType := dm.map_image_type desc.kind,
          format := fm,
          width := dims.1,
          height := dims.2.1,
          depth := if slices.isNone then dims.2.2.1 else 1,
          mipLevels := desc.levels,
          arrayLayers := slices.getD 1,
          samples := dims.2.2.2,
          tiling := ut.2,
          usage := ut.1,
          sharingMode := vk.SHARING_MODE_EXCLUSIVE,
          initialLayout := dm.map_image_layout desc.bind }
      (.ok { info := info,
             layout := info.initialLayout,
             memory := alloc f desc.usage reqs,
             desc := desc }, true)

/-- Embeds `gfx_core::factory::ResourceViewError`; the `view_target` match
in the source is exhaustive over exactly these four variants. -/
inductive ResourceViewError
  | NoBindFlag
  | Channel (c : ChannelType)
  | Layer (e : Nat)
  | Unsupported
deriving DecidableEq

/-- Embeds `gfx_core::factory::TargetViewError` (the same-shaped variants
`view_target` maps onto). -/
inductive TargetViewError
  | NoBindFlag
  | Channel (c : ChannelType)
  | Layer (e : Nat)
  | Unsupported
deriving DecidableEq

/-- Embeds `vk::ImageSubresourceRange`. -/
structure ImageSubresourceRange where
  aspectMask : Nat
  baseMipLevel : Nat
  levelCount : Nat
  baseArrayLayer : Nat
  layerCount : Nat
deriving DecidableEq, Inhabited

/-- Embeds `native::TextureView` (the fields `view_texture` computes). -/
structure TextureView where
  viewType : Nat
  format : Nat
  components : Nat
  layout : Nat
  sub_range : ImageSubresourceRange
deriving DecidableEq, Inhabited

/-- Embeds `Factory::view_texture`: view type from kind and layer, format
from the texture format and the requested channel, aspect mask from format,
channel and target-ness; the subresource range covers mips `min..=max` and
either the single requested layer or all slices reported by the kind
(defaulting to 1). -/
def view_texture (dm : DataMaps) (td : TexDescriptor) (texLayout : Nat)
    (desc : ResourceDesc) (is_target : Bool) : Except ResourceViewError TextureView :=
  match dm.map_image_view_type td.kind desc.layer with
  | .error e => .error (.Layer e)
  | .ok vt =>
      match dm.map_format td.format desc.channel with
      | none => .error (.Channel desc.channel)
      | some fm =>
          .ok { viewType := vt,
                format := fm,
                components := dm.map_swizzle desc.swizzle,
                layout := texLayout,
                sub_range :=
                  { aspectMask := dm.map_image_aspect td.format desc.channel is_target,
                    baseMipLevel := desc.min,
                    levelCount := desc.max + 1 - desc.min,
                    baseArrayLayer := desc.layer.getD 0,
                    layerCount :=
                      match desc.layer with
                      | some _ => 1
                      | none => td.kind.get_num_slices.getD 1 } }

/-- The same-shaped error translation `view_target` applies to the nested
`view_texture` error. -/
def targetOfResourceError : ResourceViewError → TargetViewError
  | .NoBindFlag => .NoBindFlag
  | .Channel ct => .Channel ct
  | .Layer le => .Layer le
  | .Unsupported => .Unsupported

/-- Embeds `Factory::view_target`: a resource view with the mip range fixed
to the base level (`min = max = 0`), the identity swizzle, target-ness set,
and errors mapped through `targetOfResourceError`. -/
def view_target (dm : DataMaps) (td : TexDescriptor) (texLayout : Nat)
    (channel : ChannelType) (layer : Option Nat) : Except TargetViewError TextureView :=
  match view_texture dm td texLayout
      { channel := channel, layer := layer, min := 0, max := 0, swizzle := swizzleNew } true with
  | .ok v => .ok v
  | .error .NoBindFlag => .error .NoBindFlag
  | .error (.Channel ct) => .error (.Channel ct)
  | .error (.Layer le) => .error (.Layer le)
  | .error .Unsupported => .error .Unsupported

/-! Concrete fixtures used to evaluate the embedding. -/

def f0 : Factory := { queue_family_index := 0, mem_video_id := 7, mem_system_id := 9 }

def reqs0 : MemoryRequirements := { size := 64, alignment := 16, memoryTypeBits := 3 }

def initZero : Nat → Nat := fun _ => 0

def texDesc0 : TexDescriptor :=
  { kind := .D2 8 8 1, levels := 1, format := 5, bind := 0, usage := .GpuOnly }

def dmNoneFormat : DataMaps := { dmId with map_format := fun _ _ => none }

def infoGpu : BufferInfo := { role := 0, usage := .GpuOnly, bind := 0, size := 4, stride := 1 }

def infoDyn : BufferInfo := { role := 0, usage := .Dynamic, bind := 0, size := 4, stride := 1 }

def bufGpu : BufferRecord :=
  { resource := create_buffer_impl f0 dmId initZero infoGpu reqs0, info := infoGpu }

def bufDyn : BufferRecord :=
  { resource := create_buffer_impl f0 dmId initZero infoDyn reqs0, info := infoDyn }

def descEmpty : PsoDescriptor :=
  { primitive := 0,
    rasterizer := { method := 0, cull_face := 0, front_face := 0, offset := none },
    constant_buffers := [], resource_views := [], unordered_views := [], samplers := [],
    vertex_buffers := [], attributes := [], color_targets := [], depth_stencil := none }

def descOneColor : PsoDescriptor :=
  { descEmpty with color_targets := [some { fmt := { surface := 3, channel := .Srgb }, blend := 0 }] }

def descOneColorDS : PsoDescriptor :=
  { descEmpty with
      color_targets := [some { fmt := { surface := 3, channel := .Srgb }, blend := 0 }],
      depth_stencil :=
        some ({ surface := 4, channel := .Unorm },
              { depth := some { fn := 1, write := true }, front := none, back := none }) }

def prOneColorDS : PipelineRecord :=
  (create_pipeline_state_raw dmId descOneColorDS).toOption.getD default

def descTwoColors : PsoDescriptor :=
  { descEmpty with
      color_targets :=
        [some { fmt := { surface := 3, channel := .Srgb }, blend := 0 },
         some { fmt := { surface := 4, channel := .Unorm }, blend := 1 }] }

def prTwoColors : PipelineRecord :=
  (create_pipeline_state_raw dmId descTwoColors).toOption.getD default

def descSlots : PsoDescriptor :=
  { descEmpty with
      constant_buffers := [none, some 3],
      resource_views := [some 1],
      samplers := [none, none, some 2] }

def prSlots : PipelineRecord :=
  (create_pipeline_state_raw dmId descSlots).toOption.getD default

def bufImm : BufferRecord :=
  (create_buffer_immutable_raw f0 dmId initZero [170, 22, 7] 1 0 0 reqs0).toOption.getD bufGpu

/-! Helper lemmas. -/

/-- Reading back the length of the copied bytes returns exactly those
bytes, whatever the memory held before. -/
theorem readBytes_writeBytes (m : Nat → Nat) (data : List Nat) :
    readBytes (writeBytes m data) data.length = data := by
  apply List.ext_getElem
  · simp [readBytes]
  · intro i h1 h2
    simp [readBytes, writeBytes, h2]

/-- A successful first-error traversal preserves the element count. -/
theorem mapExcept_ok_length {α β ε : Type} (f : α → Except ε β) (l : List α)
    (res : List β) (h : mapExcept f l = .ok res) : res.length = l.length := by
  induction l generalizing res with
  | nil =>
      simp [mapExcept] at h
      simp [← h]
  | cons a rest ih =>
      revert h
      unfold mapExcept
      cases f a with
      | error e => intro h; cases h
      | ok b =>
          cases hrec : mapExcept f rest with
          | error e => intro h; cases h
          | ok bs =>
              intro h
              cases h
              simp [ih bs hrec]

/-- Every output of a successful first-error traversal is the image of some
input element. -/
theorem mapExcept_ok_mem {α β ε : Type} (f : α → Except ε β) (l : List α)
    (res : List β) (h : mapExcept f l = .ok res) :
    ∀ b ∈ res, ∃ a ∈ l, f a = .ok b := by
  induction l generalizing res with
  | nil =>
      simp [mapExcept] at h
      subst h
      intro b hb
      simp at hb
  | cons a rest ih =>
      revert h
      unfold mapExcept
      cases hfa : f a with
      | error e => intro h; cases h
      | ok b0 =>
          cases hrec : mapExcept f rest with
          | error e => intro h; cases h
          | ok bs =>
              intro h
              cases h
              intro b hb
              rcases List.mem_cons.mp hb with hb | hb
              · exact ⟨a, List.mem_cons_self a rest, by rw [hfa, hb]⟩
              · rcases ih bs hrec b hb with ⟨a2, ha2, hfa2⟩
                exact ⟨a2, List.mem_cons_of_mem a ha2, hfa2⟩

/-- Fields of a successfully built color attachment. -/
theorem colorAttachment_ok_fields (mf : SurfaceType → ChannelType → Option Nat)
    (c : ColorTargetDesc) (a : AttachmentDescription)
    (h : colorAttachment mf c = .ok a) :
    a.loadOp = vk.ATTACHMENT_LOAD_OP_LOAD ∧
    a.storeOp = vk.ATTACHMENT_STORE_OP_STORE ∧
    a.stencilLoadOp = vk.ATTACHMENT_LOAD_OP_DONT_CARE ∧
    a.stencilStoreOp = vk.ATTACHMENT_STORE_OP_DONT_CARE := by
  revert h
  unfold colorAttachment
  cases mf c.fmt.surface c.fmt.channel with
  | none => intro h; cases h
  | some fm => intro h; cases h; exact ⟨rfl, rfl, rfl, rfl⟩

/-- Fields of a successfully built depth/stencil attachment list, and its
length. -/
theorem depthStencilAttachments_ok (mf : SurfaceType → ChannelType → Option Nat)
    (opt : Option (SurfaceFormat × DepthStencilInfo)) (l : List AttachmentDescription)
    (h : depthStencilAttachments mf opt = .ok l) :
    l.length = (if opt.isSome then 1 else 0) ∧
    ∀ a ∈ l,
      a.loadOp = vk.ATTACHMENT_LOAD_OP_LOAD ∧
      a.storeOp = vk.ATTACHMENT_STORE_OP_STORE ∧
      a.stencilLoadOp = vk.ATTACHMENT_LOAD_OP_LOAD ∧
      a.stencilStoreOp = vk.ATTACHMENT_STORE_OP_STORE := by
  revert h
  cases opt with
  | none =>
      intro h
      cases h
      exact ⟨rfl, by intro a ha; cases ha⟩
  | some p =>
      obtain ⟨fmt, dsi⟩ := p
      intro h
      unfold depthStencilAttachments at h
      cases hmf : mf fmt.surface fmt.channel with
      | none => simp only [hmf] at h; cases h
      | some fm =>
          simp only [hmf] at h
          cases h
          refine ⟨rfl, ?_⟩
          intro a ha
          rcases List.mem_singleton.mp ha with rfl
          exact ⟨rfl, rfl, rfl, rfl⟩

/-- Destructs a successful render-pass construction into its two attachment
groups. -/
theorem build_render_pass_ok_elim (mf : SurfaceType → ChannelType → Option Nat)
    (desc : PsoDescriptor) (rp : RenderPassCreateInfo)
    (h : build_render_pass mf desc = .ok rp) :
    ∃ colorAtts dsAtts,
      mapExcept (colorAttachment mf) (presentColorTargets desc) = .ok colorAtts ∧
      depthStencilAttachments mf desc.depth_stencil = .ok dsAtts ∧
      rp = { attachments := colorAtts ++ dsAtts,
             subpasses :=
               [{ colorAttachments :=
                    (List.range colorAtts.length).map
                      (fun i => { attachment := i, layout := vk.IMAGE_LAYOUT_GENERAL }),
                  depthStencilAttachment :=
                    if desc.depth_stencil.isSome then
                      some { attachment := colorAtts.length, layout := vk.IMAGE_LAYOUT_GENERAL }
                    else none }],
             dependencies := [] } := by
  revert h
  unfold build_render_pass
  cases h1 : mapExcept (colorAttachment mf) (presentColorTargets desc) with
  | error e => intro h; cases h
  | ok colorAtts =>
      cases h2 : depthStencilAttachments mf desc.depth_stencil with
      | error e => intro h; cases h
      | ok dsAtts =>
          intro h
          cases h
          exact ⟨colorAtts, dsAtts, rfl, rfl, rfl⟩

/-- Destructs a successful pipeline creation into the fields of the
registered record. -/
theorem create_pipeline_ok_elim (dm : DataMaps) (desc : PsoDescriptor)
    (pr : PipelineRecord) (h : create_pipeline_state_raw dm desc = .ok pr) :
    build_render_pass dm.map_format desc = .ok pr.render_pass ∧
    pr.setLayoutBindings = set_layout_bindings dm desc ∧
    pr.setLayoutCount = 1 ∧
    pr.pushConstantRanges = [] ∧
    pr.poolMaxSets = 100 ∧
    pr.pipeline.depthStencilState = depth_stencil_state dm desc ∧
    pr.pipeline.dynamicState = dynamic_state_info := by
  revert h
  unfold create_pipeline_state_raw
  cases h1 : build_render_pass dm.map_format desc with
  | error e => intro h; cases h
  | ok rp =>
      cases h2 : vertexAttributesFrom dm.map_format 0 desc.attributes with
      | error e => intro h; cases h
      | ok vas =>
          intro h
          cases h
          exact ⟨rfl, rfl, rfl, rfl, rfl, rfl, rfl⟩

/-- Membership in the slot-binding list built from start index `i`. -/
theorem mem_slotBindingsFrom (ms : Nat → Nat) (ty : Nat) (slots : List (Option Nat))
    (i : Nat) (b : DescriptorSetLayoutBinding) :
    b ∈ slotBindingsFrom ms ty i slots ↔
      ∃ j u, slots.get? j = some (some u) ∧
        b = { binding := i + j, descriptorType := ty, descriptorCount := 1,
              stageFlags := ms u } := by
  induction slots generalizing i with
  | nil => simp [slotBindingsFrom]
  | cons hd tl ih =>
      cases hd with
      | none =>
          rw [show slotBindingsFrom ms ty i (none :: tl) = slotBindingsFrom ms ty (i + 1) tl from rfl,
              ih]
          constructor
          · rintro ⟨j, u, hj, hb⟩
            refine ⟨j + 1, u, by simpa using hj, ?_⟩
            rw [hb]
            simp [DescriptorSetLayoutBinding.mk.injEq]
            omega
          · rintro ⟨j, u, hj, hb⟩
            cases j with
            | zero => simp at hj
            | succ j2 =>
                refine ⟨j2, u, by simpa using hj, ?_⟩
                rw [hb]
                simp [DescriptorSetLayoutBinding.mk.injEq]
                omega
      | some u0 =>
          rw [show slotBindingsFrom ms ty i (some u0 :: tl) =
                { binding := i, descriptorType := ty, descriptorCount := 1,
                  stageFlags := ms u0 } :: slotBindingsFrom ms ty (i + 1) tl from rfl]
          rw [List.mem_cons, ih]
          constructor
          · rintro (hb | ⟨j, u, hj, hb⟩)
            · exact ⟨0, u0, by simp, by simpa using hb⟩
            · refine ⟨j + 1, u, by simpa using hj, ?_⟩
              rw [hb]
              simp [DescriptorSetLayoutBinding.mk.injEq]
              omega
          · rintro ⟨j, u, hj, hb⟩
            cases j with
            | zero =>
                left
                simp at hj
                rw [hb, hj]
                simp
            | succ j2 =>
                right
                refine ⟨j2, u, by simpa using hj, ?_⟩
                rw [hb]
                simp [DescriptorSetLayoutBinding.mk.injEq]
                omega

/-- Membership in a slot-binding list built from index 0, phrased through
the binding's own index. -/
theorem mem_slotBindings_zero (ms : Nat → Nat) (ty : Nat) (slots : List (Option Nat))
    (b : DescriptorSetLayoutBinding) :
    b ∈ slotBindingsFrom ms ty 0 slots ↔
      ∃ u, slots.get? b.binding = some (some u) ∧
        b = { binding := b.binding, descriptorType := ty, descriptorCount := 1,
              stageFlags := ms u } := by
  rw [mem_slotBindingsFrom]
  constructor
  · rintro ⟨j, u, hj, hb⟩
    subst hb
    exact ⟨u, by simpa using hj, by simp⟩
  · rintro ⟨u, hu, hb⟩
    exact ⟨b.binding, u, hu, by rw [hb]; simp⟩

/-! Claim theorems. -/

/-- C1: for every pipeline descriptor, the descriptor-set-layout bindings
emitted by `create_pipeline_state_raw` are exactly one binding per populated
constant-buffer / shader-resource / unordered-access / sampler slot, with
binding index equal to the slot's array index (gaps are left, indices are
never renumbered), descriptor type fixed per category, and stage flags
translated from the slot's usage value. -/
theorem create_pipeline_set_layout_bindings_exact (dm : DataMaps) (desc : PsoDescriptor)
    (pr : PipelineRecord) (h : create_pipeline_state_raw dm desc = .ok pr) :
    ∀ b : DescriptorSetLayoutBinding, b ∈ pr.setLayoutBindings ↔
      ((∃ u, desc.constant_buffers.get? b.binding = some (some u) ∧
          b = { binding := b.binding, descriptorType := vk.DESCRIPTOR_TYPE_UNIFORM_BUFFER,
                descriptorCount := 1, stageFlags := dm.map_stage u }) ∨
       (∃ u, desc.resource_views.get? b.binding = some (some u) ∧
          b = { binding := b.binding, descriptorType := vk.DESCRIPTOR_TYPE_SAMPLED_IMAGE,
                descriptorCount := 1, stageFlags := dm.map_stage u }) ∨
       (∃ u, desc.unordered_views.get? b.binding = some (some u) ∧
          b = { binding := b.binding, descriptorType := vk.DESCRIPTOR_TYPE_STORAGE_IMAGE,
                descriptorCount := 1, stageFlags := dm.map_stage u }) ∨
       (∃ u, desc.samplers.get? b.binding = some (some u) ∧
          b = { binding := b.binding, descriptorType := vk.DESCRIPTOR_TYPE_SAMPLER,
                descriptorCount := 1, stageFlags := dm.map_stage u })) := by
  intro b
  rw [(create_pipeline_ok_elim dm desc pr h).2.1]
  unfold set_layout_bindings
  simp only [List.mem_append]
  rw [mem_slotBindings_zero, mem_slotBindings_zero, mem_slotBindings_zero,
      mem_slotBindings_zero]
  simp only [or_assoc]

/-- Witness for C1: a descriptor with gaps in its slots; the populated
constant-buffer slot 1 yields the uniform-buffer binding with index 1. -/
theorem create_pipeline_set_layout_bindings_exact_witness :
    create_pipeline_state_raw dmId descSlots = .ok prSlots ∧
    ({ binding := 1, descriptorType := vk.DESCRIPTOR_TYPE_UNIFORM_BUFFER,
       descriptorCount := 1, stageFlags := 3 } : DescriptorSetLayoutBinding) ∈
      prSlots.setLayoutBindings := by
  have h : create_pipeline_state_raw dmId descSlots = .ok prSlots := rfl
  refine ⟨h, ?_⟩
  exact ((create_pipeline_set_layout_bindings_exact dmId descSlots prSlots h)
      { binding := 1, descriptorType := vk.DESCRIPTOR_TYPE_UNIFORM_BUFFER,
        descriptorCount := 1, stageFlags := 3 }).mpr
    (Or.inl ⟨3, rfl, rfl⟩)

/-- C2 (code bug): the graphics-pipeline record built by
`create_pipeline_state_raw` lists the four dynamic states
viewport/scissor/blend-constants/stencil-reference in its array, but sets
`dynamicStateCount` to 1, so only the viewport is actually enabled — not
all four as the specification states. -/
theorem create_pipeline_dynamic_state_count_bug :
    (create_pipeline_state_raw dmId descEmpty).toOption.map
        (fun pr => (pr.pipeline.dynamicState.dynamicStateCount,
                    pr.pipeline.dynamicState.pDynamicStates,
                    enabledDynamicStates pr.pipeline.dynamicState)) =
      some (1,
            [vk.DYNAMIC_STATE_VIEWPORT, vk.DYNAMIC_STATE_SCISSOR,
             vk.DYNAMIC_STATE_BLEND_CONSTANTS, vk.DYNAMIC_STATE_STENCIL_REFERENCE],
            [vk.DYNAMIC_STATE_VIEWPORT]) ∧
    ([vk.DYNAMIC_STATE_VIEWPORT] : List Nat) ≠
      [vk.DYNAMIC_STATE_VIEWPORT, vk.DYNAMIC_STATE_SCISSOR,
       vk.DYNAMIC_STATE_BLEND_CONSTANTS, vk.DYNAMIC_STATE_STENCIL_REFERENCE] := by
  exact ⟨rfl, by decide⟩

/-- C3 counterexample: with one color target, the render pass built by
`create_pipeline_state_raw` gives that attachment stencil load/store ops of
dont-care, so not every load/store field of every attachment is
load/store. -/
theorem render_pass_color_stencil_ops_counterexample :
    (create_pipeline_state_raw dmId descOneColor).toOption.map
        (fun pr => pr.render_pass.attachments.map
          (fun a => (a.stencilLoadOp, a.stencilStoreOp))) =
      some [(vk.ATTACHMENT_LOAD_OP_DONT_CARE, vk.ATTACHMENT_STORE_OP_DONT_CARE)] ∧
    vk.ATTACHMENT_LOAD_OP_DONT_CARE ≠ vk.ATTACHMENT_LOAD_OP_LOAD ∧
    vk.ATTACHMENT_STORE_OP_DONT_CARE ≠ vk.ATTACHMENT_STORE_OP_STORE := by
  exact ⟨rfl, by decide, by decide⟩

/-- C3 (amended): every attachment in the render pass built by
`create_pipeline_state_raw` has loadOp load and storeOp store; the color
attachments (the first `presentColorTargets` many) have stencil load/store
ops dont-care, while the depth/stencil attachment (the remainder) has
stencil load/store ops load/store. -/
theorem render_pass_load_store_ops_amended (dm : DataMaps) (desc : PsoDescriptor)
    (pr : PipelineRecord) (h : create_pipeline_state_raw dm desc = .ok pr) :
    (∀ a ∈ pr.render_pass.attachments,
        a.loadOp = vk.ATTACHMENT_LOAD_OP_LOAD ∧
        a.storeOp = vk.ATTACHMENT_STORE_OP_STORE) ∧
    (∀ a ∈ pr.render_pass.attachments.take (presentColorTargets desc).length,
        a.stencilLoadOp = vk.ATTACHMENT_LOAD_OP_DONT_CARE ∧
        a.stencilStoreOp = vk.ATTACHMENT_STORE_OP_DONT_CARE) ∧
    (∀ a ∈ pr.render_pass.attachments.drop (presentColorTargets desc).length,
        a.stencilLoadOp = vk.ATTACHMENT_LOAD_OP_LOAD ∧
        a.stencilStoreOp = vk.ATTACHMENT_STORE_OP_STORE) := by
  have hrp := (create_pipeline_ok_elim dm desc pr h).1
  obtain ⟨colorAtts, dsAtts, hc, hd, hrpeq⟩ :=
    build_render_pass_ok_elim dm.map_format desc pr.render_pass hrp
  have hlen : colorAtts.length = (presentColorTargets desc).length :=
    mapExcept_ok_length _ _ _ hc
  have hatts : pr.render_pass.attachments = colorAtts ++ dsAtts := by rw [hrpeq]
  have hcolor : ∀ a ∈ colorAtts,
      a.loadOp = vk.ATTACHMENT_LOAD_OP_LOAD ∧
      a.storeOp = vk.ATTACHMENT_STORE_OP_STORE ∧
      a.stencilLoadOp = vk.ATTACHMENT_LOAD_OP_DONT_CARE ∧
      a.stencilStoreOp = vk.ATTACHMENT_STORE_OP_DONT_CARE := by
    intro a ha
    obtain ⟨c, _, hca⟩ := mapExcept_ok_mem _ _ _ hc a ha
    exact colorAttachment_ok_fields _ _ _ hca
  have hds := (depthStencilAttachments_ok _ _ _ hd).2
  refine ⟨?_, ?_, ?_⟩
  · intro a ha
    rw [hatts] at ha
    rcases List.mem_append.mp ha with ha | ha
    · exact ⟨(hcolor a ha).1, (hcolor a ha).2.1⟩
    · exact ⟨(hds a ha).1, (hds a ha).2.1⟩
  · intro a ha
    rw [hatts, ← hlen, List.take_left] at ha
    exact ⟨(hcolor a ha).2.2.1, (hcolor a ha).2.2.2⟩
  · intro a ha
    rw [hatts, ← hlen, List.drop_left] at ha
    exact ⟨(hds a ha).2.2.1, (hds a ha).2.2.2⟩

/-- Witness for the amended C3: a pipeline with one color target and a
depth/stencil target; its first attachment has loadOp load. -/
theorem render_pass_load_store_ops_amended_witness :
    create_pipeline_state_raw dmId descOneColorDS = .ok prOneColorDS ∧
    (prOneColorDS.render_pass.attachments.headD default).loadOp =
      vk.ATTACHMENT_LOAD_OP_LOAD := by
  have h : create_pipeline_state_raw dmId descOneColorDS = .ok prOneColorDS := rfl
  refine ⟨h, ?_⟩
  exact ((render_pass_load_store_ops_amended dmId descOneColorDS prOneColorDS h).1
    (prOneColorDS.render_pass.attachments.headD default) (by decide)).1

/-- C4: for every pipeline descriptor, the render pass built by
`create_pipeline_state_raw` has one attachment per present color target plus
a depth/stencil attachment iff the descriptor has a depth/stencil target,
exactly one subpass referencing all color attachments (indices 0..n-1) plus
the optional depth/stencil attachment (index n), no subpass dependencies,
and an absent depth/stencil target makes the depth-test-enable flag
false. -/
theorem render_pass_shape_and_depth_test (dm : DataMaps) (desc : PsoDescriptor)
    (pr : PipelineRecord) (h : create_pipeline_state_raw dm desc = .ok pr) :
    pr.render_pass.attachments.length =
      (presentColorTargets desc).length +
        (if desc.depth_stencil.isSome then 1 else 0) ∧
    pr.render_pass.subpasses =
      [{ colorAttachments :=
           (List.range (presentColorTargets desc).length).map
             (fun i => { attachment := i, layout := vk.IMAGE_LAYOUT_GENERAL }),
         depthStencilAttachment :=
           if desc.depth_stencil.isSome then
             some { attachment := (presentColorTargets desc).length,
                    layout := vk.IMAGE_LAYOUT_GENERAL }
           else none }] ∧
    pr.render_pass.dependencies = [] ∧
    (desc.depth_stencil = none →
      pr.pipeline.depthStencilState.depthTestEnable = vk.FALSE_) := by
  have el := create_pipeline_ok_elim dm desc pr h
  obtain ⟨colorAtts, dsAtts, hc, hd, hrpeq⟩ :=
    build_render_pass_ok_elim dm.map_format desc pr.render_pass el.1
  have hlen : colorAtts.length = (presentColorTargets desc).length :=
    mapExcept_ok_length _ _ _ hc
  have hdlen := (depthStencilAttachments_ok _ _ _ hd).1
  refine ⟨?_, ?_, ?_, ?_⟩
  · rw [hrpeq]
    simp [List.length_append, hlen, hdlen]
  · rw [hrpeq, hlen]
  · rw [hrpeq]
  · intro hnone
    rw [el.2.2.2.2.2.1]
    simp [depth_stencil_state, hnone]

/-- Witness for C4: two color targets and no depth/stencil target give a
render pass with exactly two attachments, no dependencies, and a false
depth-test-enable flag. -/
theorem render_pass_shape_and_depth_test_witness :
    create_pipeline_state_raw dmId descTwoColors = .ok prTwoColors ∧
    prTwoColors.render_pass.attachments.length = 2 ∧
    prTwoColors.render_pass.dependencies = [] ∧
    prTwoColors.pipeline.depthStencilState.depthTestEnable = vk.FALSE_ := by
  have h : create_pipeline_state_raw dmId descTwoColors = .ok prTwoColors := rfl
  have t := render_pass_shape_and_depth_test dmId descTwoColors prTwoColors h
  exact ⟨h, t.1.trans (by decide), t.2.2.1, t.2.2.2 rfl⟩

/-- C5: `create_buffer_immutable_raw` creates the buffer with usage fixed to
`Immutable` and size equal to the byte count, and after the map/copy/unmap
sequence the buffer's contents exactly equal the input bytes. -/
theorem create_buffer_immutable_contents (f : Factory) (dm : DataMaps)
    (init : Nat → Nat) (data : List Nat) (stride role bind : Nat)
    (reqs : MemoryRequirements) (r : BufferRecord)
    (h : create_buffer_immutable_raw f dm init data stride role bind reqs = .ok r) :
    r.info.usage = Usage.Immutable ∧
    r.info.size = data.length ∧
    r.resource.createInfo.size = data.length ∧
    readBytes r.resource.contents data.length = data := by
  simp only [create_buffer_immutable_raw] at h
  cases h
  exact ⟨rfl, rfl, rfl, readBytes_writeBytes init data⟩

/-- Witness for C5: a concrete three-byte payload reads back verbatim. -/
theorem create_buffer_immutable_contents_witness :
    create_buffer_immutable_raw f0 dmId initZero [170, 22, 7] 1 0 0 reqs0 = .ok bufImm ∧
    readBytes bufImm.resource.contents bufImm.info.size = [170, 22, 7] := by
  have h : create_buffer_immutable_raw f0 dmId initZero [170, 22, 7] 1 0 0 reqs0 =
      .ok bufImm := rfl
  refine ⟨h, ?_⟩
  have t := create_buffer_immutable_contents f0 dmId initZero [170, 22, 7] 1 0 0 reqs0 bufImm h
  rw [t.2.1]
  exact t.2.2.2

/-- C6: `map_buffer_raw` rejects an access mode the buffer's creation-time
usage does not permit with the invalid-access mapping error and performs no
native map call; a permitted access maps the entire backing region (offset
0, whole size) and returns the mapping gate. -/
theorem map_buffer_raw_access_validation (buf : BufferRecord) (access : Access) :
    (usage_permits buf.info.usage access = false →
       map_buffer_raw buf access =
         (.error (.InvalidAccess access buf.info.usage), false)) ∧
    (usage_permits buf.info.usage access = true →
       map_buffer_raw buf access =
         (.ok { access := access, mappedOffset := 0, mappedSize := vk.WHOLE_SIZE },
          true)) := by
  constructor <;> intro h <;> simp [map_buffer_raw, valid_access, h]

/-- Witness for C6: a GPU-only buffer rejects a writable mapping; a dynamic
buffer accepts a read-write mapping of the whole region. -/
theorem map_buffer_raw_access_validation_witness :
    map_buffer_raw bufGpu WRITABLE =
      (.error (.InvalidAccess WRITABLE Usage.GpuOnly), false) ∧
    map_buffer_raw bufDyn RW =
      (.ok { access := RW, mappedOffset := 0, mappedSize := vk.WHOLE_SIZE }, true) :=
  ⟨(map_buffer_raw_access_validation bufGpu WRITABLE).1 rfl,
   (map_buffer_raw_access_validation bufDyn RW).2 rfl⟩

/-- C7: the allocator selects the system memory type id exactly for CpuOnly
usage and the video memory type id for every other usage, and the
allocation size equals the reported memory requirements. -/
theorem alloc_memory_type_and_size (f : Factory) (reqs : MemoryRequirements) :
    (∀ a, (alloc f (.CpuOnly a) reqs).memoryTypeIndex = f.mem_system_id) ∧
    (∀ usage : Usage, (∀ a, usage ≠ .CpuOnly a) →
       (alloc f usage reqs).memoryTypeIndex = f.mem_video_id) ∧
    (∀ usage, (alloc f usage reqs).allocationSize = reqs.size) := by
  refine ⟨fun a => rfl, ?_, fun usage => rfl⟩
  intro usage hne
  cases usage with
  | GpuOnly => rfl
  | Immutable => rfl
  | Dynamic => rfl
  | CpuOnly a => exact absurd rfl (hne a)

/-- Witness for C7: system id 9 for a CpuOnly allocation, video id 7 and
requirement-sized allocation for a GpuOnly one. -/
theorem alloc_memory_type_and_size_witness :
    (alloc f0 (Usage.CpuOnly RW) reqs0).memoryTypeIndex = 9 ∧
    (alloc f0 Usage.GpuOnly reqs0).memoryTypeIndex = 7 ∧
    (alloc f0 Usage.GpuOnly reqs0).allocationSize = 64 := by
  have t := alloc_memory_type_and_size f0 reqs0
  exact ⟨t.1 RW, t.2.1 Usage.GpuOnly (fun a h2 => Usage.noConfusion h2),
         t.2.2 Usage.GpuOnly⟩

/-- C8: `create_texture_raw` resolves the pixel format at the channel-type
hint (defaulting to Uint when absent); an unresolved format returns the
Format error carrying the requested format and the original hint without
creating a native image, while a resolved format creates the image with that
format and an allocation keyed off the declared usage. -/
theorem create_texture_format_resolution (dm : DataMaps) (f : Factory)
    (reqs : MemoryRequirements) (desc : TexDescriptor) (hint : Option ChannelType) :
    (dm.map_format desc.format (hint.getD ChannelType.Uint) = none →
       create_texture_raw dm f reqs desc hint =
         (.error (.Format desc.format hint), false)) ∧
    (∀ fm, dm.map_format desc.format (hint.getD ChannelType.Uint) = some fm →
       ((create_texture_raw dm f reqs desc hint).1.toOption.map
           (fun t => (t.info.format, t.memory, t.layout)) =
         some (fm, alloc f desc.usage reqs, dm.map_image_layout desc.bind)) ∧
       (create_texture_raw dm f reqs desc hint).2 = true) := by
  constructor
  · intro h
    simp [create_texture_raw, h]
  · intro fm h
    simp [create_texture_raw, h]
    exact ⟨_, rfl, rfl, rfl, rfl⟩

/-- Witness for C8: an unresolvable format fails with the Format error and
no image; Rgba8-as-id-5 with an Srgb hint succeeds. -/
theorem create_texture_format_resolution_witness :
    create_texture_raw dmNoneFormat f0 reqs0 texDesc0 none =
      (.error (.Format texDesc0.format none), false) ∧
    ((create_texture_raw dmId f0 reqs0 texDesc0 (some .Srgb)).1.toOption.map
        (fun t => (t.info.format, t.memory, t.layout)) =
      some (5, alloc f0 texDesc0.usage reqs0, 0)) ∧
    (create_texture_raw dmId f0 reqs0 texDesc0 (some .Srgb)).2 = true :=
  ⟨(create_texture_format_resolution dmNoneFormat f0 reqs0 texDesc0 none).1 rfl,
   ((create_texture_format_resolution dmId f0 reqs0 texDesc0 (some .Srgb)).2 5 rfl).1,
   ((create_texture_format_resolution dmId f0 reqs0 texDesc0 (some .Srgb)).2 5 rfl).2⟩

/-- C9: `view_target` is `view_texture` with the mip range fixed to the base
level (min = max = 0) and nested error kinds mapped to the same-shaped
target-view error kinds; and a successful render-target view of a 2D
texture with no layer has subresource range baseArrayLayer 0, layerCount 1,
baseMipLevel 0, levelCount 1. -/
theorem view_target_specialization (dm : DataMaps) (td : TexDescriptor)
    (layout : Nat) (ch : ChannelType) (layer : Option Nat) :
    view_target dm td layout ch layer =
      Except.mapError targetOfResourceError
        (view_texture dm td layout
          { channel := ch, layer := layer, min := 0, max := 0, swizzle := swizzleNew }
          true) ∧
    (∀ w hh aa vt fm,
       td.kind = .D2 w hh aa →
       dm.map_image_view_type td.kind none = .ok vt →
       dm.map_format td.format ChannelType.Srgb = some fm →
       view_target dm td layout ChannelType.Srgb none =
         .ok { viewType := vt, format := fm,
               components := dm.map_swizzle swizzleNew, layout := layout,
               sub_range :=
                 { aspectMask := dm.map_image_aspect td.format ChannelType.Srgb true,
                   baseMipLevel := 0, levelCount := 1,
                   baseArrayLayer := 0, layerCount := 1 } }) := by
  constructor
  · unfold view_target
    cases hv : view_texture dm td layout
        { channel := ch, layer := layer, min := 0, max := 0, swizzle := swizzleNew }
        true with
    | ok v => rfl
    | error e => cases e <;> rfl
  · intro w hh aa vt fm hkind hvt hfm
    rw [hkind] at hvt
    simp [view_target, view_texture, hvt, hfm, hkind, Kind.get_num_slices]

/-- Witness for C9: a D2 texture, no layer, Srgb channel; the returned view
has the stated subresource range. -/
theorem view_target_specialization_witness :
    texDesc0.kind = Kind.D2 8 8 1 ∧
    view_target dmId texDesc0 3 ChannelType.Srgb none =
      .ok { viewType := 0, format := 5, components := 0, layout := 3,
            sub_range := { aspectMask := 1, baseMipLevel := 0, levelCount := 1,
                           baseArrayLayer := 0, layerCount := 1 } } :=
  ⟨rfl,
   (view_target_specialization dmId texDesc0 3 ChannelType.Srgb none).2
     8 8 1 0 5 rfl rfl rfl⟩

/-- C10: `create_buffer_raw` returns Ok for every buffer info (size 0 and
any role included); the error branch of its result type is never taken. -/
theorem create_buffer_raw_always_ok (f : Factory) (dm : DataMaps) (init : Nat → Nat)
    (info : BufferInfo) (reqs : MemoryRequirements) :
    ∃ r : BufferRecord, create_buffer_raw f dm init info reqs = .ok r ∧ r.info = info :=
  ⟨_, rfl, rfl⟩
